import Mathlib

/-!
Shallow embedding of the idilia-source-plugin (a Janus gateway plugin) in Lean 4,
together with theorems settling the specification claims C1..C10.

Every definition mirrors a concrete C function of the repository:
  * `ports_pool_get` / `ports_pool_return`       — ports_pool.c
  * `socket_utils_create_socket_loop`            — socket_utils.c (retry loop)
  * `sdp_get_codec_pt_for_type`, `sdp_get_codec_pt`, `sdp_pt_to_codec_id`,
    `sdp_get_video_codec`, `sdp_get_audio_codec`, `sdp_set_video_codec`
                                                 — sdp_utils.c
  * `janus_source_incoming_rtp`, `janus_source_relay_rtp`,
    `janus_source_slow_link`, `janus_source_hangup_media`,
    `janus_source_send_id_error`, `janus_source_destroy_session`,
    `janus_source_close_session`, `janus_source_remove_pid_from_registry`
                                                 — idilia_source.c
  * `registry_create_response_handle`            — the registry-response branch of
    `janus_rtsp_handle_client_callback` in gst_utils.c
  * `janus_source_create_launch_pipe`            — gst_utils.c

Side effects (UDP sends, HTTP requests, event pushes, mountpoint mutations) are
modelled as explicit action lists; the GLib random draws and bind/connect
outcomes are oracle parameters; machine integers are `Int`/`Nat` (the few
counters that can overflow are noted at their definitions). The file is laid
out as the complete data model and operations first, followed by all theorems.
-/

namespace IdiliaSource

/-! # Definitions

## Port pool (ports_pool.c)

The pool state is the C struct `ports_pool`: a closed interval `[min, max]`,
the GList of allocated ports, and the allocation counter `count` (a `gint`,
hence `Int`: `ports_pool_return` can drive it negative). -/

structure ports_pool where
  pmin : Int
  pmax : Int
  list : List Int
  count : Int
deriving DecidableEq, Repr

/-- `g_list_remove`: removes the first element equal to `x` (if any). -/
def g_list_remove (l : List Int) (x : Int) : List Int :=
  match l with
  | [] => []
  | a :: as => if a = x then as else a :: g_list_remove as x

/-- `ports_pool_return` (ports_pool.c): removes the port from the list and
decrements `count` unconditionally — even when the port was not in the list. -/
def ports_pool_return (pp : ports_pool) (port : Int) : ports_pool :=
  { pp with list := g_list_remove pp.list port, count := pp.count - 1 }

/-- The inner `do { port = g_random_int_range(min, max); } while (found)` loop of
`ports_pool_get`. `draws` is the oracle stream of values produced by
`g_random_int_range(min, max)` (each lies in `[min, max-1]`); the loop takes the
first draw that is not currently allocated. `none` models the loop never
exiting because no supplied draw is free. -/
def rand_loop (allocated : List Int) : List Int → Option Int
  | [] => none
  | d :: ds => if allocated.contains d then rand_loop allocated ds else some d

/-- `ports_pool_get` (ports_pool.c). Returns the resulting port (0 = failure)
and the updated pool; `none` only when the requested port is out of range and
the random-draw loop never finds a free port. -/
def ports_pool_get (pp : ports_pool) (port : Int) (draws : List Int) :
    Option (Int × ports_pool) :=
  if pp.count ≥ pp.pmax - pp.pmin then
    some (0, pp)
  else
    let port' : Option Int :=
      if pp.pmin ≤ port ∧ port ≤ pp.pmax then
        (if pp.list.contains port then some 0 else some port)
      else
        rand_loop pp.list draws
    match port' with
    | none => none
    | some p =>
      if p > 0 then
        some (p, { pp with list := pp.list ++ [p], count := pp.count + 1 })
      else
        some (p, pp)

/-- A pool over `[4000, 4001]` with 4000 allocated: one free port remains. -/
def pool_c2a : ports_pool := ⟨4000, 4001, [4000], 1⟩

/-- A pool over `[4000, 4002]` with 4000 allocated: two free ports remain. -/
def pool_c2b : ports_pool := ⟨4000, 4002, [4000], 1⟩

/-! ## Session state (idilia_source_common.h, struct janus_source_session)

`hangingup` is the `volatile gint` manipulated with `g_atomic_int_*`;
`destroyed` is the `gint64` monotonic timestamp (0 = live); `slowlink_count`
is a `guint16` and therefore wraps modulo 2^16; `bitrate` is a `uint64_t`
(none of the operations below can reach 2^64). String fields are `Option`
(`none` = NULL), and `sockets` is the GHashTable from socket-role name to the
socket handle, itself `Option` because `close_session` nulls the table. -/

structure janus_source_session where
  audio_active : Bool := true
  video_active : Bool := true
  bitrate : Nat := 0
  slowlink_count : Nat := 0
  hangingup : Int := 0
  destroyed : Int := 0
  id : Option String := none
  db_entry_session_id : Option String := none
  rtsp_url : Option String := none
  sockets : Option (List (String × Int)) := none
  callback_data : Bool := false
deriving DecidableEq, Repr

/-- `g_hash_table_lookup` on the sockets table: first binding for the key. -/
def sockets_lookup (tbl : List (String × Int)) (key : String) : Option Int :=
  match tbl with
  | [] => none
  | (k, v) :: rest => if k = key then some v else sockets_lookup rest key

/-- How `g_strdup_printf` renders a `%s` argument: NULL prints as `(null)`
under GLib. -/
def cstr : Option String → String
  | some s => s
  | none => "(null)"

/-! ## incoming_rtp (idilia_source.c) -/

/-- Observable effect of the RTP path: a `g_socket_send` on the named client
socket. -/
inductive RtpAction where
  | sendOn (socketName : String)
deriving DecidableEq, Repr

/-- `janus_source_relay_rtp`: looks up `video_rtp_cli` / `audio_rtp_cli` in the
session's socket table and sends the buffer on it; a failed lookup (or a NULL
table) drops the packet. -/
def janus_source_relay_rtp (s : janus_source_session) (video : Bool) :
    List RtpAction :=
  let name := if video then "video_rtp_cli" else "audio_rtp_cli"
  match s.sockets with
  | none => []
  | some tbl =>
    match sockets_lookup tbl name with
    | none => []
    | some _ => [RtpAction.sendOn name]

/-- `janus_source_incoming_rtp`. Guards, in source order: NULL/stopped handle,
plugin stopping or not initialized, gateway NULL, session NULL, session
destroyed, then the per-kind active flag; the surviving packet is relayed via
`janus_source_relay_rtp`. Note the source checks `session->destroyed` but
never `session->hangingup` on this path. -/
def janus_source_incoming_rtp (handleStopped stopping initialized gatewayPresent : Bool)
    (session : Option janus_source_session) (video : Bool) : List RtpAction :=
  if handleStopped || stopping || !initialized then []
  else if !gatewayPresent then []
  else
    match session with
    | none => []
    | some s =>
      if s.destroyed ≠ 0 then []
      else if (!video && s.audio_active) || (video && s.video_active) then
        janus_source_relay_rtp s video
      else []

/-- A session that is hanging up (`hangingup = 1`) but not destroyed, with
video active and its `video_rtp_cli` socket present. -/
def session_c1 : janus_source_session :=
  { hangingup := 1, destroyed := 0, video_active := true,
    sockets := some [("video_rtp_cli", 4100), ("audio_rtp_cli", 4102)] }

/-! ## slow_link (idilia_source.c) -/

/-- Observable effects of `janus_source_slow_link`: the REMB relayed through
the gateway and the `slow_link` event pushed to the peer, each carrying the
new bitrate. -/
inductive SlowLinkAction where
  | relayRtcpRemb (bitrate : Nat)
  | pushSlowLinkEvent (bitrate : Nat)
deriving DecidableEq, Repr

/-- `janus_source_slow_link`. After the liveness guards it increments
`slowlink_count` (a `guint16`, so modulo 2^16); the uplink-with-disabled-flag
cases only log; otherwise, for video, the bitrate is halved starting from
`512 * 1024` when it was 0, floored at `64 * 1024`, and a REMB plus a
`slow_link` event carry the new value. -/
def janus_source_slow_link (handleStopped stopping initialized : Bool)
    (session : Option janus_source_session) (uplink video : Bool) :
    Option janus_source_session × List SlowLinkAction :=
  if handleStopped || stopping || !initialized then (session, [])
  else
    match session with
    | none => (none, [])
    | some s =>
      if s.destroyed ≠ 0 then (some s, [])
      else
        let s := { s with slowlink_count := (s.slowlink_count + 1) % 65536 }
        if uplink && !video && !s.audio_active then (some s, [])
        else if uplink && video && !s.video_active then (some s, [])
        else if video then
          let b1 := if s.bitrate > 0 then s.bitrate else 512 * 1024
          let b2 := b1 / 2
          let b3 := if b2 < 64 * 1024 then 64 * 1024 else b2
          (some { s with bitrate := b3 },
            [SlowLinkAction.relayRtcpRemb b3, SlowLinkAction.pushSlowLinkEvent b3])
        else (some s, [])

/-- A live session with bitrate 0 (unbounded). -/
def session_c4 : janus_source_session :=
  { bitrate := 0, slowlink_count := 0, destroyed := 0 }

/-! ## hangup_media, send_id_error and the registry create response
(idilia_source.c and the tail of janus_rtsp_handle_client_callback in
gst_utils.c) -/

/-- Observable effects along the registry-create path: the `done` event pushed
by `hangup_media`, the numbered error event pushed by `send_id_error`, the
`media-configure`/`client-connected` signal subscriptions, and the RTSP
mountpoint registration. -/
inductive RegistryAction where
  | pushDoneEvent
  | pushErrorEvent (code : Nat)
  | connectSignals
  | addMountpoint (id : Option String)
deriving DecidableEq, Repr

/-- `janus_source_hangup_media`. `g_atomic_int_add(&hangingup, 1)` increments
and returns the previous value: a second call increments again but pushes
nothing; the first call pushes the `done` event and resets the controls
(`audio_active`, `video_active` true, `bitrate` 0). -/
def janus_source_hangup_media (stopping initialized : Bool)
    (session : Option janus_source_session) :
    Option janus_source_session × List RegistryAction :=
  if stopping || !initialized then (session, [])
  else
    match session with
    | none => (none, [])
    | some s =>
      if s.destroyed ≠ 0 then (some s, [])
      else
        let old := s.hangingup
        let s := { s with hangingup := s.hangingup + 1 }
        if old ≠ 0 then (some s, [])
        else
          (some { s with audio_active := true, video_active := true, bitrate := 0 },
            [RegistryAction.pushDoneEvent])

/-- `janus_source_send_id_error`: pushes the INVALID_URL_ID (414) error event
to the peer unless the plugin is stopping or the session is gone/destroyed. -/
def janus_source_send_id_error (stopping initialized : Bool)
    (session : Option janus_source_session) : List RegistryAction :=
  if stopping || !initialized then []
  else
    match session with
    | none => []
    | some s => if s.destroyed ≠ 0 then [] else [RegistryAction.pushErrorEvent 414]

/-- The parsed registry create response: `isObject` is `json_is_object`,
`code` is `json_integer_value(json_object_get(obj, "code"))` (0 when the field
is absent), `dbId` is the `_id` string. -/
structure RegistryResponse where
  isObject : Bool
  code : Int
  dbId : Option String
deriving DecidableEq, Repr

/-- The `USE_REGISTRY_SERVICE` branch of `janus_rtsp_handle_client_callback`
that consumes the registry create response (gst_utils.c). On transport
failure or a non-object response nothing happens; a non-zero `code` equal to
`11000` (compared by formatting the integer and `g_strcmp0` against the
literal `"11000"`) triggers `hangup_media` then `send_id_error`; code 0
connects the `media-configure` and `client-connected` signals, adds the
mountpoint `/<id>` and stores the registry `_id`. The sessions map is passed
through untouched — this code never removes the session from it. -/
def registry_create_response_handle (stopping initialized : Bool)
    (session : Option janus_source_session) (sessionsMap : List Nat)
    (curlOk : Bool) (resp : RegistryResponse) :
    Option janus_source_session × List Nat × List RegistryAction :=
  if !curlOk then (session, sessionsMap, [])
  else if !resp.isObject then (session, sessionsMap, [])
  else if resp.code ≠ 0 then
    if toString resp.code = "11000" then
      let (s1, acts1) := janus_source_hangup_media stopping initialized session
      let acts2 := janus_source_send_id_error stopping initialized s1
      (s1, sessionsMap, acts1 ++ acts2)
    else (session, sessionsMap, [])
  else
    match session with
    | none => (none, sessionsMap, [])
    | some s =>
      (some { s with db_entry_session_id := resp.dbId }, sessionsMap,
        [RegistryAction.connectSignals, RegistryAction.addMountpoint s.id])

/-! ## close_session and destroy_session (idilia_source.c) -/

/-- Observable effects of session teardown: the registry HTTP DELETE, the
mountpoint-removal submission and each socket close (which returns its port
to the pool). -/
inductive DestroyAction where
  | curlDelete (url : String)
  | removeMountpoint (id : Option String)
  | closeSocket (name : String) (port : Int)
deriving DecidableEq, Repr

/-- `janus_source_close_session`. Unconditionally issues the registry DELETE
on `<status_service_url>/<db_entry_session_id>` (the plugin is built with
`USE_REGISTRY_SERVICE` defined); removes the mountpoint when both
`rtsp_server_data` and the session's `callback_data` are non-NULL; closes
every socket of the table (returning each port to the pool) and nulls the
table; frees `id`, `db_entry_session_id` and `rtsp_url`. It does not touch
`destroyed`, `hangingup` or `callback_data`. -/
def janus_source_close_session (rtspServerPresent : Bool)
    (status_service_url : Option String) (s : janus_source_session)
    (pool : ports_pool) :
    janus_source_session × ports_pool × List DestroyAction :=
  let curl_str := cstr status_service_url ++ "/" ++ cstr s.db_entry_session_id
  let actsDelete := [DestroyAction.curlDelete curl_str]
  let actsMount :=
    if rtspServerPresent && s.callback_data then
      [DestroyAction.removeMountpoint s.id]
    else []
  let poolActs :=
    match s.sockets with
    | none => (pool, [])
    | some tbl =>
      (tbl.foldl (fun p (kv : String × Int) => ports_pool_return p kv.2) pool,
        tbl.map (fun (kv : String × Int) => DestroyAction.closeSocket kv.1 kv.2))
  ({ s with sockets := none, id := none, db_entry_session_id := none,
            rtsp_url := none },
    poolActs.1, actsDelete ++ actsMount ++ poolActs.2)

/-- Result of `janus_source_destroy_session`: the `*error` assignment (if
any), the session state, the sessions map, the `old_sessions` list, the port
pool and the emitted actions. -/
structure DestroyResult where
  error : Option Int
  session : Option janus_source_session
  sessionsMap : List Nat
  old_sessions : List Nat
  pool : ports_pool
  actions : List DestroyAction
deriving DecidableEq, Repr

/-- `janus_source_destroy_session`. Note the source calls
`janus_source_close_session` before checking `session->destroyed`: only the
map removal, the `old_sessions` append and the `destroyed` stamp are guarded
by `if (!session->destroyed)`. `now` is `janus_get_monotonic_time()`. -/
def janus_source_destroy_session (stopping initialized rtspServerPresent : Bool)
    (status_service_url : Option String) (session : Option janus_source_session)
    (sessionsMap : List Nat) (handle : Nat) (old_sessions : List Nat)
    (pool : ports_pool) (now : Int) : DestroyResult :=
  if stopping || !initialized then
    ⟨some (-1), session, sessionsMap, old_sessions, pool, []⟩
  else
    match session with
    | none => ⟨some (-2), none, sessionsMap, old_sessions, pool, []⟩
    | some s =>
      let closed := janus_source_close_session rtspServerPresent status_service_url s pool
      if closed.1.destroyed = 0 then
        ⟨none, some { closed.1 with destroyed := now }, sessionsMap.erase handle,
          old_sessions ++ [handle], closed.2.1, closed.2.2⟩
      else
        ⟨none, some closed.1, sessionsMap, old_sessions, closed.2.1, closed.2.2⟩

/-- A session on which `destroy_session` has already completed once: stamped
destroyed, sockets table NULL, identifying strings freed, `callback_data`
still set (close_session never clears it). -/
def session_c7 : janus_source_session :=
  { destroyed := 5, hangingup := 1, sockets := none, id := none,
    db_entry_session_id := none, rtsp_url := none, callback_data := true }

/-! ## remove_pid_from_registry (idilia_source.c) -/

/-- An HTTP request as issued through `curl_request`. -/
inductive HttpAction where
  | delete (url : String)
deriving DecidableEq, Repr

/-- `janus_source_remove_pid_from_registry`. The source builds
`curl_str = g_strdup_printf("%s/%s", keepalive_service_url, PID)` but then
passes `keepalive_service_url` — not `curl_str` — to `curl_request`, and frees
`curl_str` unused. The returned pair is (the string that was built, the
request actually issued). -/
def janus_source_remove_pid_from_registry (keepalive_service_url : Option String)
    (pid : String) : String × HttpAction :=
  let curl_str := cstr keepalive_service_url ++ "/" ++ pid
  (curl_str, HttpAction.delete (cstr keepalive_service_url))

/-- The keepalive section of `janus_source_destroy`: the keepalive thread is
joined and the handle nulled, after which `keepalive == NULL` necessarily
holds and `janus_source_remove_pid_from_registry` runs exactly once. The
result is the list of HTTP requests issued by this section. -/
def janus_source_destroy_keepalive_section (keepalive_service_url : Option String)
    (pid : String) : List HttpAction :=
  [(janus_source_remove_pid_from_registry keepalive_service_url pid).2]

/-! ## socket_utils_create_socket (socket_utils.c)

The `do { ... } while (!result)` retry loop. Per iteration: a client socket
(`req_port != 0`) uses the requested port without touching the pool, a server
socket acquires one via `ports_pool_get(pp, 0)`; acquiring 0 breaks out of the
loop with `result` still TRUE, after which `sck->port = port; g_assert(port)`
aborts; otherwise bind/connect runs (outcome oracle `bindOk`, indexed by the
iteration), and on failure the port is returned to the pool — whether or not
it was ever acquired from it — and the loop repeats. `fuel` bounds the
unrolling of the unbounded C loop; `drawsAt i` is the random-draw stream of
iteration `i`. -/

inductive SockCreateResult where
  | ok (port : Int) (pool : ports_pool)
  | assertFailed (pool : ports_pool)
  | randStuck (pool : ports_pool)
  | outOfFuel (pool : ports_pool)
deriving DecidableEq, Repr

def socket_utils_create_socket_loop (req_port : Int) (bindOk : Nat → Bool)
    (drawsAt : Nat → List Int) : Nat → Nat → ports_pool → SockCreateResult
  | 0, _, pool => SockCreateResult.outOfFuel pool
  | fuel + 1, i, pool =>
    let acquired : Option (Int × ports_pool) :=
      if req_port ≠ 0 then some (req_port, pool)
      else ports_pool_get pool 0 (drawsAt i)
    match acquired with
    | none => SockCreateResult.randStuck pool
    | some (port, pool1) =>
      if port = 0 then SockCreateResult.assertFailed pool1
      else if bindOk i then SockCreateResult.ok port pool1
      else
        socket_utils_create_socket_loop req_port bindOk drawsAt fuel (i + 1)
          (ports_pool_return pool1 port)

/-- Oracle under which every bind/connect attempt fails. -/
def bind_always_fail : Nat → Bool := fun _ => false

/-! ## SDP utilities (sdp_utils.c)

The GRegex patterns of sdp_utils.c are built from literals and the quantified
classes `[ \t]+`, `[0-9]+`, `[a-zA-Z0-9]+`. In every pattern each quantified
class is disjoint from the first character of the following element, so PCRE
matching at a position coincides with greedy maximal-munch matching, and the
leftmost match is found by trying every suffix left to right (`find_first`).
SDP text is modelled as `List Char`. -/

def isDigitCh (c : Char) : Bool := '0' ≤ c && c ≤ '9'

def isSpTab (c : Char) : Bool := c = ' ' || c = '\t'

def isAlnumCh (c : Char) : Bool :=
  ('a' ≤ c && c ≤ 'z') || ('A' ≤ c && c ≤ 'Z') || isDigitCh c

/-- Greedy maximal run of characters satisfying `p`: (run, rest). -/
def spanP (p : Char → Bool) : List Char → List Char × List Char
  | [] => ([], [])
  | c :: cs =>
    if p c then
      let r := spanP p cs
      (c :: r.1, r.2)
    else ([], c :: cs)

/-- Match one-or-more characters of class `p`, greedily. -/
def matchPlus (p : Char → Bool) (cs : List Char) :
    Option (List Char × List Char) :=
  match spanP p cs with
  | ([], _) => none
  | (run, rest) => some (run, rest)

/-- Match a literal at the head; returns the rest. -/
def matchLit : List Char → List Char → Option (List Char)
  | [], cs => some cs
  | _ :: _, [] => none
  | l :: ls, c :: cs => if c = l then matchLit ls cs else none

/-- Value of a digit run, as read by `sscanf %d` (runs in the SDPs of interest
are short, so `int` overflow is not modelled). -/
def digitsVal (ds : List Char) : Nat :=
  ds.foldl (fun acc c => acc * 10 + (c.toNat - 48)) 0

/-- `g_strdup_printf("%d", i)`. -/
def int_to_chars (i : Int) : List Char := (toString i).data

/-- Leftmost match: try `f` on every suffix, left to right. -/
def find_first {α : Type} (f : List Char → Option α) : List Char → Option α
  | [] => none
  | c :: cs =>
    match f (c :: cs) with
    | some r => some r
    | none => find_first f cs

/-- Boolean check that `pat` is at the head of `cs`. -/
def prefB : List Char → List Char → Bool
  | [], _ => true
  | _ :: _, [] => false
  | p :: ps, c :: cs => p = c && prefB ps cs

/-- Boolean check that `pat` occurs somewhere in `cs` (like `strstr`). -/
def containsPat (pat : List Char) (cs : List Char) : Bool :=
  if prefB pat cs then true
  else
    match cs with
    | [] => false
    | _ :: rest => containsPat pat rest

/-- `str_replace_once` (sdp_utils.c): replace the first occurrence of `old` in
`input` by `new`; NULL (`none`) when `old` does not occur. -/
def str_replace_once (input old new : List Char) : Option (List Char) :=
  if prefB old input then some (new ++ input.drop old.length)
  else
    match input with
    | [] => none
    | c :: cs => (str_replace_once cs old new).map (fun r => c :: r)

/-- The codec ids of sdp_utils.h (`idilia_codec`). -/
inductive idilia_codec where
  | opus
  | vp8
  | vp9
  | h264
  | invalid
deriving DecidableEq, Repr

/-- `get_codec_name`: first entry of `codec_name_mapping` with the given id
(ids are unique, so this is the table as a function). -/
def get_codec_name : idilia_codec → List Char
  | idilia_codec.h264 => ("H264").data
  | idilia_codec.vp8 => ("VP8").data
  | idilia_codec.vp9 => ("VP9").data
  | idilia_codec.opus => ("opus").data
  | idilia_codec.invalid => ("INVALID").data

/-- `sdp_codec_name_to_id`: scans `codec_name_mapping` in order with
`g_strcmp0`; a NULL name matches no entry (and the `"INVALID"` entry maps to
`IDILIA_CODEC_INVALID`, the same value the fallthrough returns). -/
def sdp_codec_name_to_id : Option (List Char) → idilia_codec
  | none => idilia_codec.invalid
  | some n =>
    if n = ("H264").data then idilia_codec.h264
    else if n = ("VP8").data then idilia_codec.vp8
    else if n = ("VP9").data then idilia_codec.vp9
    else if n = ("opus").data then idilia_codec.opus
    else idilia_codec.invalid

/-- One attempt, at the head of `cs`, of the pattern
`m=<type>[ \t]+[0-9]+[ \t]+UDP/TLS/RTP/SAVPF[ \t]+[0-9]+` used by
`sdp_get_codec_pt_for_type`; yields the payload type the sscanf extracts (the
trailing digit run). -/
def match_mline_at (type : List Char) (cs : List Char) : Option Int := do
  let cs1 ← matchLit (("m=").data ++ type) cs
  let (_, cs2) ← matchPlus isSpTab cs1
  let (_, cs3) ← matchPlus isDigitCh cs2
  let (_, cs4) ← matchPlus isSpTab cs3
  let cs5 ← matchLit (("UDP/TLS/RTP/SAVPF").data) cs4
  let (_, cs6) ← matchPlus isSpTab cs5
  let (d, _) ← matchPlus isDigitCh cs6
  return Int.ofNat (digitsVal d)

/-- `sdp_get_codec_pt_for_type` (sdp_utils.c): first payload type enumerated
on the `m=<type>` line with transport `UDP/TLS/RTP/SAVPF`, or -1. -/
def sdp_get_codec_pt_for_type (sdp : List Char) (type : List Char) : Int :=
  match find_first (match_mline_at type) sdp with
  | none => -1
  | some pt => pt

/-- One attempt of the pattern `a=rtpmap:<pt>[ \t]+[a-zA-Z0-9]+` used by
`sdp_pt_to_codec_id` (`<pt>` rendered by `%d`, so `a=rtpmap:-1...` for -1);
yields the codec name the sscanf extracts (the alnum run). -/
def match_rtpmap_name_at (pt : Int) (cs : List Char) : Option (List Char) := do
  let cs1 ← matchLit ((("a=rtpmap:").data) ++ int_to_chars pt) cs
  let (_, cs2) ← matchPlus isSpTab cs1
  let (name, _) ← matchPlus isAlnumCh cs2
  return name

/-- `sdp_pt_to_codec_id` (sdp_utils.c). -/
def sdp_pt_to_codec_id (sdp : List Char) (pt : Int) : idilia_codec :=
  sdp_codec_name_to_id (find_first (match_rtpmap_name_at pt) sdp)

/-- `sdp_get_video_codec` (sdp_utils.c). -/
def sdp_get_video_codec (sdp : List Char) : idilia_codec :=
  sdp_pt_to_codec_id sdp (sdp_get_codec_pt_for_type sdp (("video").data))

/-- `sdp_get_audio_codec` (sdp_utils.c). -/
def sdp_get_audio_codec (sdp : List Char) : idilia_codec :=
  sdp_pt_to_codec_id sdp (sdp_get_codec_pt_for_type sdp (("audio").data))

/-- One attempt of the pattern `a=rtpmap:[0-9]+[ \t]+<name>/` used by
`sdp_get_codec_pt`; yields the digit run (the payload type). -/
def match_rtpmap_pt_at (cname : List Char) (cs : List Char) : Option Int := do
  let cs1 ← matchLit (("a=rtpmap:").data) cs
  let (d, cs2) ← matchPlus isDigitCh cs1
  let (_, cs3) ← matchPlus isSpTab cs2
  let _ ← matchLit (cname ++ [(Char.ofNat 47)]) cs3
  return Int.ofNat (digitsVal d)

/-- `sdp_get_codec_pt` (sdp_utils.c): payload type declared by the first
`a=rtpmap:<pt> <name>/...` line for the codec, or -1. -/
def sdp_get_codec_pt (sdp : List Char) (codec : idilia_codec) : Int :=
  match find_first (match_rtpmap_pt_at (get_codec_name codec)) sdp with
  | none => -1
  | some pt => pt

/-- A successful match of the two-payload-type video line regex
`m=video[ \t]+[0-9]+[ \t]+UDP/TLS/RTP/SAVPF[ \t]+[0-9]+[ \t]+[0-9]+` of
`sdp_set_video_codec`: the matched text and the three sscanf-extracted
integers (port and the first two payload types). -/
structure VideoLineMatch where
  text : List Char
  port : Int
  pt1 : Int
  pt2 : Int
deriving DecidableEq, Repr

/-- One attempt of the two-payload-type video line pattern at the head of
`cs`. -/
def match_vline2_at (cs : List Char) : Option VideoLineMatch := do
  let lit1 := ("m=video").data
  let cs1 ← matchLit lit1 cs
  let (w1, cs2) ← matchPlus isSpTab cs1
  let (dp, cs3) ← matchPlus isDigitCh cs2
  let (w2, cs4) ← matchPlus isSpTab cs3
  let lit2 := ("UDP/TLS/RTP/SAVPF").data
  let cs5 ← matchLit lit2 cs4
  let (w3, cs6) ← matchPlus isSpTab cs5
  let (d1, cs7) ← matchPlus isDigitCh cs6
  let (w4, cs8) ← matchPlus isSpTab cs7
  let (d2, _) ← matchPlus isDigitCh cs8
  return ⟨lit1 ++ w1 ++ dp ++ w2 ++ lit2 ++ w3 ++ d1 ++ w4 ++ d2,
    Int.ofNat (digitsVal dp), Int.ofNat (digitsVal d1), Int.ofNat (digitsVal d2)⟩

/-- The replacement line `g_strdup_printf("m=video %d UDP/TLS/RTP/SAVPF %d %d",
port_video, desired_codec_pt, codec1)` of `sdp_set_video_codec`, where
`codec1` is the matched second payload type unless that already equals the
desired one, in which case it is the matched first payload type. Note the
single-space separators. -/
def sdp_new_video_line (m : VideoLineMatch) (desired : Int) : List Char :=
  let codec1 := if m.pt2 ≠ desired then m.pt2 else m.pt1
  (("m=video ").data) ++ int_to_chars m.port ++ ((" UDP/TLS/RTP/SAVPF ").data) ++
    int_to_chars desired ++ [(' ')] ++ int_to_chars codec1

/-- `sdp_set_video_codec` (sdp_utils.c). Returns a copy of the offer when the
desired codec is already first or is INVALID, or when the two-payload-type
video line pattern does not match; otherwise replaces the first occurrence of
the matched text by the rebuilt line. -/
def sdp_set_video_codec (sdp_offer : List Char) (video_codec : idilia_codec) :
    Option (List Char) :=
  let current_codec_pt := sdp_get_codec_pt_for_type sdp_offer (("video").data)
  let desired_codec_pt := sdp_get_codec_pt sdp_offer video_codec
  if current_codec_pt = desired_codec_pt ∨ video_codec = idilia_codec.invalid then
    some sdp_offer
  else
    match find_first match_vline2_at sdp_offer with
    | some m => str_replace_once sdp_offer m.text (sdp_new_video_line m desired_codec_pt)
    | none => some sdp_offer

/-! ## Launch pipeline (gst_utils.c and audio_video_defines.h)

The pipeline templates take four `%d` conversions; the call site passes
`(codec_pt, socket_rtp_srv_name, socket_rtcp_rcv_srv_name, port)`, i.e. two
`char *` socket names for the middle `%d`s — their printed values are the
pointer bits, modelled as the opaque arguments `a2`, `a3`. -/

def PIPE_VIDEO_VP8 (a1 a2 a3 a4 : Int) : List Char :=
  (("rtpbin name=sess_vid rtp-profile=3 \tudpsrc port=").data) ++ int_to_chars a1 ++
  ((" caps=\"application/x-rtp, media=video, payload=").data) ++ int_to_chars a2 ++
  ((", encoding-name=VP8, clock-rate=90000, rtcp-fb-nack-pli=1, rtp-profile=3\" name=udp_rtp_src_video  \t! sess_vid.recv_rtp_sink_0 \tsess_vid. ! rtpvp8depay name=depay_vid \tudpsrc port=").data) ++
  int_to_chars a3 ++
  ((" ! sess_vid.recv_rtcp_sink_0 \tsess_vid.send_rtcp_src_0 ! udpsink port=").data) ++
  int_to_chars a4 ++ ((" sync=false async=false \tdepay_vid. ! rtpvp8pay pt=96").data)

def PIPE_VIDEO_VP9 (a1 a2 a3 a4 : Int) : List Char :=
  (("rtpbin name=sess_vid rtp-profile=3 \tudpsrc port=").data) ++ int_to_chars a1 ++
  ((" caps=\"application/x-rtp, media=video, payload=").data) ++ int_to_chars a2 ++
  ((", encoding-name=VP9, clock-rate=90000, rtcp-fb-nack-pli=1, rtp-profile=3\" name=udp_rtp_src_video  \t! sess_vid.recv_rtp_sink_0 \tsess_vid. ! rtpvp9depay name=depay_vid \tudpsrc port=").data) ++
  int_to_chars a3 ++
  ((" ! sess_vid.recv_rtcp_sink_0 \tsess_vid.send_rtcp_src_0 ! udpsink port=").data) ++
  int_to_chars a4 ++ ((" sync=false async=false \tdepay_vid. ! rtpvp9pay pt=96").data)

def PIPE_VIDEO_H264 (a1 a2 a3 a4 : Int) : List Char :=
  (("rtpbin name=sess_vid rtp-profile=3 \tudpsrc port=").data) ++ int_to_chars a1 ++
  ((" caps=\"application/x-rtp, media=video, payload=").data) ++ int_to_chars a2 ++
  ((", encoding-name=H264, clock-rate=90000, rtcp-fb-nack-pli=1, rtp-profile=3\" name=udp_rtp_src_video  \t! sess_vid.recv_rtp_sink_0 \tsess_vid. ! rtph264depay name=depay_vid \tudpsrc port=").data) ++
  int_to_chars a3 ++
  ((" ! sess_vid.recv_rtcp_sink_0 \tsess_vid.send_rtcp_src_0 ! udpsink port=").data) ++
  int_to_chars a4 ++ ((" sync=false async=false \tdepay_vid. ! rtph264pay pt=96").data)

def PIPE_AUDIO_OPUS (a1 a2 a3 a4 : Int) : List Char :=
  (("udpsrc port=").data) ++ int_to_chars a1 ++
  ((" name=udp_rtp_src_audio ! application/x-rtp, media=audio, payload=").data) ++
  int_to_chars a2 ++
  ((", encoding-name=OPUS, clock-rate=48000, rtp-profile=3 ! .recv_rtp_sink rtpsession name=sess_aud \t.recv_rtp_src ! rtpopusdepay name=depay_aud \tudpsrc port=").data) ++
  int_to_chars a3 ++
  ((" ! sess_aud.recv_rtcp_sink \tsess_aud.send_rtcp_src ! udpsink port=").data) ++
  int_to_chars a4 ++ ((" \tdepay_aud. ! audio/x-opus, channels=1 ! rtpopuspay pt=127").data)

/-- The per-stream `switch (session->codec[stream])` of
`janus_source_create_launch_pipe`: video codecs fill the `launch_pipe_video`
slot, OPUS fills `launch_pipe_audio`, anything else leaves both alone. -/
def launch_switch (codec : idilia_codec) (pt a2 a3 port : Int)
    (lpv lpa : Option (List Char)) : Option (List Char) × Option (List Char) :=
  match codec with
  | idilia_codec.vp8 => (some (PIPE_VIDEO_VP8 pt a2 a3 port), lpa)
  | idilia_codec.vp9 => (some (PIPE_VIDEO_VP9 pt a2 a3 port), lpa)
  | idilia_codec.h264 => (some (PIPE_VIDEO_H264 pt a2 a3 port), lpa)
  | idilia_codec.opus => (lpv, some (PIPE_AUDIO_OPUS pt a2 a3 port))
  | idilia_codec.invalid => (lpv, lpa)

/-- `%s` of a possibly-NULL `gchar *` (GLib prints `(null)`). -/
def cstr_chars : Option (List Char) → List Char
  | some s => s
  | none => ("(null)").data

/-- `janus_source_create_launch_pipe` (gst_utils.c). Per stream (video first,
then audio): look up the stream's `*_rtcp_snd_srv` socket — a failed lookup
returns NULL — then run the codec switch; finally assemble `pay0`/`pay1`
according to which codecs are not INVALID. `snd_port_video`/`snd_port_audio`
are the looked-up ports, `ptr_*` the opaque pointer bits of the socket-name
strings passed to the `%d` conversions. -/
def janus_source_create_launch_pipe (codec_video codec_audio : idilia_codec)
    (pt_video pt_audio : Int) (snd_port_video snd_port_audio : Option Int)
    (ptr_vid_rtp ptr_vid_rtcp ptr_aud_rtp ptr_aud_rtcp : Int) :
    Option (List Char) :=
  match snd_port_video with
  | none => none
  | some portV =>
    match snd_port_audio with
    | none => none
    | some portA =>
      let st1 := launch_switch codec_video pt_video ptr_vid_rtp ptr_vid_rtcp portV
        none none
      let st2 := launch_switch codec_audio pt_audio ptr_aud_rtp ptr_aud_rtcp portA
        st1.1 st1.2
      if codec_video ≠ idilia_codec.invalid ∧ codec_audio ≠ idilia_codec.invalid then
        some ((("( ").data) ++ cstr_chars st2.1 ++ ((" name=pay0  ").data) ++
          cstr_chars st2.2 ++ ((" name=pay1 )").data))
      else if codec_video ≠ idilia_codec.invalid ∧ codec_audio = idilia_codec.invalid then
        some ((("( ").data) ++ cstr_chars st2.1 ++ ((" name=pay0 )").data))
      else if codec_video = idilia_codec.invalid ∧ codec_audio ≠ idilia_codec.invalid then
        some ((("( ").data) ++ cstr_chars st2.2 ++ ((" name=pay0 )").data))
      else none

/-! ## Concrete SDP inputs for the C5 and C10 theorems -/

/-- An offer whose video m-line enumerates three payload types 100 96 97, with
H264 declared at payload type 97. -/
def sdp_c5 : List Char :=
  ("m=video 9 UDP/TLS/RTP/SAVPF 100 96 97\na=rtpmap:97 H264/90000\n").data

/-- What the code produces on `sdp_c5` for H264: the first two enumerated
payload types are overwritten with `97 96`, leaving the third in place — 100
is dropped from the line and 97 now occurs twice. -/
def sdp_c5_code_result : List Char :=
  ("m=video 9 UDP/TLS/RTP/SAVPF 97 96 97\na=rtpmap:97 H264/90000\n").data

/-- What the claim describes for `sdp_c5` and H264: 97 moved to the front,
100 and 96 keeping their relative order. -/
def sdp_c5_claim_result : List Char :=
  ("m=video 9 UDP/TLS/RTP/SAVPF 97 100 96\na=rtpmap:97 H264/90000\n").data

/-- An offer whose video m-line uses transport `RTP/AVP` (not
`UDP/TLS/RTP/SAVPF`) yet carries a well-formed rtpmap for VP8. -/
def sdp_c10 : List Char :=
  ("m=video 9 RTP/AVP 100\na=rtpmap:100 VP8/90000\n").data

/-! # Theorems -/

/-! ### Claim C2 -/

/-- C2 counterexample. The claim is false on two counts.
(1) With pool `[4000,4001]` and only port 4000 allocated, the free in-range
port 4001 is requested, yet `ports_pool_get` returns 0 (failure) because the
guard is `count >= max - min`, which trips while a port of the interval is
still free — so the pool does not "fail exactly when all ports of the interval
are allocated" and does not "return the requested port if it is within
[min,max] and not currently allocated".
(2) With pool `[4000,4002]` and port 4000 allocated, requesting the allocated
in-range port 4000 returns 0 instead of picking a random free port. -/
theorem c2_counterexample :
    (ports_pool_get pool_c2a 4001 [] = some (0, pool_c2a) ∧
      pool_c2a.list.contains 4001 = false ∧
      pool_c2a.pmin ≤ 4001 ∧ (4001 : Int) ≤ pool_c2a.pmax) ∧
    (ports_pool_get pool_c2b 4000 [4001, 4002] = some (0, pool_c2b) ∧
      pool_c2b.list.contains 4001 = false) := by
  decide

/-- C2 amended: `ports_pool_get` (a) returns 0 and leaves the pool unchanged as
soon as `count ≥ max - min`, even when ports of `[min,max]` are still free;
otherwise (b) it returns a requested free in-range port and allocates it,
(c) returns 0 (no random fallback, pool unchanged) when the requested port is
in range but already allocated, and (d) for an out-of-range request takes the
first free draw of the `g_random_int_range(min, max)` stream — a stream that
ranges over `[min, max-1]`, never `max` — and allocates it. -/
theorem c2_ports_pool_get_amended (pp : ports_pool) (port : Int) (draws : List Int) :
    (pp.count ≥ pp.pmax - pp.pmin → ports_pool_get pp port draws = some (0, pp)) ∧
    (pp.count < pp.pmax - pp.pmin → pp.pmin ≤ port → port ≤ pp.pmax →
      pp.list.contains port = false → 0 < port →
      ports_pool_get pp port draws =
        some (port, { pp with list := pp.list ++ [port], count := pp.count + 1 })) ∧
    (pp.count < pp.pmax - pp.pmin → pp.pmin ≤ port → port ≤ pp.pmax →
      pp.list.contains port = true →
      ports_pool_get pp port draws = some (0, pp)) ∧
    (∀ d : Int, pp.count < pp.pmax - pp.pmin → ¬(pp.pmin ≤ port ∧ port ≤ pp.pmax) →
      rand_loop pp.list draws = some d → 0 < d →
      ports_pool_get pp port draws =
        some (d, { pp with list := pp.list ++ [d], count := pp.count + 1 })) := by
  refine ⟨?_, ?_, ?_, ?_⟩
  · intro h
    simp [ports_pool_get, h]
  · intro hcap hlo hhi hfree hpos
    rw [ports_pool_get, if_neg (by omega), if_pos ⟨hlo, hhi⟩, hfree]
    simp [hpos]
  · intro hcap hlo hhi halloc
    rw [ports_pool_get, if_neg (by omega), if_pos ⟨hlo, hhi⟩, halloc]
    simp
  · intro d hcap hrange hloop hpos
    rw [ports_pool_get, if_neg (by omega), if_neg hrange, hloop]
    simp [hpos]

/-- Witness for `c2_ports_pool_get_amended` at a concrete pool: requesting the
free in-range port 4500 of an empty pool over `[4000, 5000]` yields 4500. -/
theorem c2_ports_pool_get_amended_witness :
    ports_pool_get ⟨4000, 5000, [], 0⟩ 4500 [] =
      some (4500, ⟨4000, 5000, [4500], 1⟩) :=
  (c2_ports_pool_get_amended ⟨4000, 5000, [], 0⟩ 4500 []).2.1
    (by decide) (by decide) (by decide) (by decide) (by decide)

/-! ### Claim C3 -/

/-- C3 counterexample: returning a port that is not in the allocated set does
not leave the pool state unchanged — the allocation count drops (here to -1),
only the allocated list stays the same. -/
theorem c3_counterexample :
    ports_pool_return ⟨4000, 4001, [], 0⟩ 4000 = ⟨4000, 4001, [], -1⟩ ∧
    (⟨4000, 4001, [], -1⟩ : ports_pool) ≠ ⟨4000, 4001, [], 0⟩ := by
  decide

theorem g_list_remove_of_not_mem {l : List Int} {x : Int} (h : x ∉ l) :
    g_list_remove l x = l := by
  induction l with
  | nil => rfl
  | cons a as ih =>
    rw [List.mem_cons, not_or] at h
    rw [g_list_remove, if_neg (by exact fun e => h.1 (by omega)), ih h.2]

theorem g_list_remove_count_eq_zero {l : List Int} {x : Int}
    (h : l.count x = 1) : x ∉ g_list_remove l x := by
  induction l with
  | nil => simp [g_list_remove]
  | cons a as ih =>
    by_cases hax : a = x
    · subst hax
      rw [List.count_cons_self] at h
      have : as.count a = 0 := by omega
      rw [g_list_remove, if_pos rfl]
      exact (List.count_eq_zero.mp this)
    · rw [List.count_cons_of_ne (by exact fun e => hax e.symm)] at h
      rw [g_list_remove, if_neg hax]
      intro hmem
      rcases List.mem_cons.mp hmem with h1 | h2
      · exact hax h1.symm
      · exact ih h h2

/-- C3 amended: `ports_pool_return` removes the first occurrence of the port
from the allocated list but decrements the allocation count unconditionally.
Hence a port not in the allocated set leaves the set unchanged while the count
still drops by one, and a port held exactly once is absent from the set
afterwards (the "free exactly once" consequence holds for the set, with the
count off when unknown ports are ever returned). -/
theorem c3_ports_pool_return_amended (pp : ports_pool) (port : Int) :
    ((ports_pool_return pp port).count = pp.count - 1) ∧
    (port ∉ pp.list → (ports_pool_return pp port).list = pp.list) ∧
    (pp.list.count port = 1 → port ∉ (ports_pool_return pp port).list) := by
  refine ⟨rfl, ?_, ?_⟩
  · intro h
    exact g_list_remove_of_not_mem h
  · intro h
    exact g_list_remove_count_eq_zero h

/-- Witness for `c3_ports_pool_return_amended`: returning port 4000 held
exactly once leaves it absent, and returning the unknown port 4999 leaves the
allocated list unchanged. -/
theorem c3_ports_pool_return_amended_witness :
    ((4000 : Int) ∉ (ports_pool_return ⟨4000, 5000, [4000], 1⟩ 4000).list) ∧
    (ports_pool_return ⟨4000, 5000, [4000], 1⟩ 4999).list = [4000] :=
  ⟨(c3_ports_pool_return_amended ⟨4000, 5000, [4000], 1⟩ 4000).2.2 (by decide),
   (c3_ports_pool_return_amended ⟨4000, 5000, [4000], 1⟩ 4999).2.1 (by decide)⟩

/-! ### Claim C1 -/

/-- C1 counterexample: the claim says a packet arriving while the session is
hanging up is dropped, but `janus_source_incoming_rtp` never consults
`hangingup` — on this hanging-up (not destroyed) session the video packet is
still sent on `video_rtp_cli`. -/
theorem c1_counterexample :
    janus_source_incoming_rtp false false true true (some session_c1) true =
      [RtpAction.sendOn "video_rtp_cli"] ∧
    session_c1.hangingup ≠ 0 ∧ session_c1.destroyed = 0 := by
  refine ⟨rfl, by decide, rfl⟩

/-- C1 amended: with a live plugin (handle not stopped, not stopping,
initialized, gateway present), `incoming_rtp` (a) drops the packet when the
session is destroyed — but hanging up alone does not drop it; (b) drops it
when the active flag for the packet's kind is false; (c) otherwise sends the
bytes on the session's `video_rtp_cli` (video) or `audio_rtp_cli` (audio)
socket when that socket is in the session's table, regardless of `hangingup`. -/
theorem c1_incoming_rtp_amended (s : janus_source_session) (video : Bool)
    (tbl : List (String × Int)) :
    (s.destroyed ≠ 0 →
      janus_source_incoming_rtp false false true true (some s) video = []) ∧
    (s.destroyed = 0 → (if video then s.video_active else s.audio_active) = false →
      janus_source_incoming_rtp false false true true (some s) video = []) ∧
    (s.destroyed = 0 → (if video then s.video_active else s.audio_active) = true →
      s.sockets = some tbl →
      sockets_lookup tbl (if video then "video_rtp_cli" else "audio_rtp_cli") ≠ none →
      janus_source_incoming_rtp false false true true (some s) video =
        [RtpAction.sendOn (if video then "video_rtp_cli" else "audio_rtp_cli")]) := by
  refine ⟨?_, ?_, ?_⟩
  · intro h
    simp [janus_source_incoming_rtp, h]
  · intro hlive hflag
    cases video <;>
      simp_all [janus_source_incoming_rtp, janus_source_relay_rtp]
  · intro hlive hflag htbl hlook
    cases hl : sockets_lookup tbl (if video then "video_rtp_cli" else "audio_rtp_cli") with
    | none => exact absurd hl hlook
    | some p =>
      cases video <;>
        simp_all [janus_source_incoming_rtp, janus_source_relay_rtp]

/-- Witness for `c1_incoming_rtp_amended`: a destroyed session drops the
packet. -/
theorem c1_incoming_rtp_amended_witness :
    janus_source_incoming_rtp false false true true
      (some { session_c1 with destroyed := 7 }) true = [] :=
  (c1_incoming_rtp_amended { session_c1 with destroyed := 7 } true []).1 (by decide)

/-! ### Claim C4 -/

/-- C4 counterexample: on `slow_link(uplink=false, is_video=true)` with bitrate
0 the new bitrate is `512 * 1024 / 2 = 262144`, not the claimed 256000
(512000/2), and the REMB and event carry 262144. -/
theorem c4_counterexample :
    janus_source_slow_link false false true (some session_c4) false true =
      (some { session_c4 with slowlink_count := 1, bitrate := 262144 },
        [SlowLinkAction.relayRtcpRemb 262144,
          SlowLinkAction.pushSlowLinkEvent 262144]) ∧
    (262144 : Nat) ≠ 256000 := by
  exact ⟨rfl, by decide⟩

/-- C4 amended: `slow_link(uplink=false, is_video=true)` on a live session with
bitrate 0 increments `slowlink_count` (mod 2^16), sets the bitrate to
`512*1024/2 = 262144` — the halving base is 512 KiB and the floor on
subsequent halvings is `64*1024 = 65536`, not 512000 and 64000 — relays a REMB
carrying 262144 and pushes a `slow_link` event carrying 262144. -/
theorem c4_slow_link_amended (s : janus_source_session)
    (hlive : s.destroyed = 0) (hb : s.bitrate = 0) :
    janus_source_slow_link false false true (some s) false true =
      (some { s with slowlink_count := (s.slowlink_count + 1) % 65536,
                     bitrate := 262144 },
        [SlowLinkAction.relayRtcpRemb 262144,
          SlowLinkAction.pushSlowLinkEvent 262144]) := by
  simp [janus_source_slow_link, hlive, hb]

/-- Witness for `c4_slow_link_amended` at the concrete live session. -/
theorem c4_slow_link_amended_witness :
    janus_source_slow_link false false true (some session_c4) false true =
      (some { session_c4 with slowlink_count := 1, bitrate := 262144 },
        [SlowLinkAction.relayRtcpRemb 262144,
          SlowLinkAction.pushSlowLinkEvent 262144]) :=
  c4_slow_link_amended session_c4 rfl rfl

/-! ### Claim C6 -/

/-- C6: when the registry create response is a JSON object with `code` 11000,
the duplicate-id branch (i) runs `hangup_media` — pushing the `done` event and
resetting `audio_active`, `video_active` and `bitrate` — and `send_id_error` —
pushing the error event with code 414; (ii) never adds the mountpoint;
(iii) leaves the sessions map untouched; and (iv) the resulting session is
still live (`destroyed = 0`), so a later `destroy_session` succeeds and stamps
it destroyed. -/
theorem c6_duplicate_id (s : janus_source_session) (sessionsMap : List Nat)
    (resp : RegistryResponse) (rtspServerPresent : Bool) (surl : Option String)
    (handle : Nat) (old : List Nat) (pool : ports_pool) (now : Int)
    (hdest : s.destroyed = 0) (hhang : s.hangingup = 0)
    (hobj : resp.isObject = true) (hcode : resp.code = 11000) :
    registry_create_response_handle false true (some s) sessionsMap true resp =
      (some { s with hangingup := 1, audio_active := true, video_active := true,
                     bitrate := 0 }, sessionsMap,
        [RegistryAction.pushDoneEvent, RegistryAction.pushErrorEvent 414]) ∧
    (∀ i, RegistryAction.addMountpoint i ∉
      (registry_create_response_handle false true (some s) sessionsMap true resp).2.2) ∧
    ((janus_source_destroy_session false true rtspServerPresent surl
        (some { s with hangingup := 1, audio_active := true, video_active := true,
                       bitrate := 0 }) sessionsMap handle old pool now).error = none ∧
      ∃ s2, (janus_source_destroy_session false true rtspServerPresent surl
          (some { s with hangingup := 1, audio_active := true, video_active := true,
                         bitrate := 0 }) sessionsMap handle old pool now).session =
            some s2 ∧ s2.destroyed = now) := by
  have hmain : registry_create_response_handle false true (some s) sessionsMap true resp =
      (some { s with hangingup := 1, audio_active := true, video_active := true,
                     bitrate := 0 }, sessionsMap,
        [RegistryAction.pushDoneEvent, RegistryAction.pushErrorEvent 414]) := by
    rw [registry_create_response_handle]
    rw [if_neg (by simp), if_neg (by simp [hobj]), if_pos (by rw [hcode]; decide),
      if_pos (by rw [hcode]; decide)]
    rw [janus_source_hangup_media]
    rw [if_neg (by simp)]
    simp only [hdest, if_neg (by simp : ¬(0 : Int) ≠ 0), hhang]
    rw [janus_source_send_id_error]
    simp
  refine ⟨hmain, ?_, ?_, ?_⟩
  · intro i
    rw [hmain]
    simp
  · simp [janus_source_destroy_session, janus_source_close_session, hdest]
  · refine ⟨{ s with
        hangingup := 1, audio_active := true, video_active := true,
        bitrate := 0, sockets := none, id := none, db_entry_session_id := none,
        rtsp_url := none, destroyed := now }, ?_, rfl⟩
    simp [janus_source_destroy_session, janus_source_close_session, hdest]

/-- Witness for `c6_duplicate_id` at a concrete live session and the concrete
duplicate-id response. -/
theorem c6_duplicate_id_witness :
    registry_create_response_handle false true
        (some { destroyed := 0, hangingup := 0, id := some "cam1" }) [3] true
        ⟨true, 11000, some "r1"⟩ =
      (some { destroyed := 0, hangingup := 1, id := some "cam1",
              audio_active := true, video_active := true, bitrate := 0 }, [3],
        [RegistryAction.pushDoneEvent, RegistryAction.pushErrorEvent 414]) :=
  (c6_duplicate_id { destroyed := 0, hangingup := 0, id := some "cam1" } [3]
    ⟨true, 11000, some "r1"⟩ true (some "http://reg") 3 [] ⟨4000, 5000, [], 0⟩ 9
    rfl rfl rfl rfl).1

/-! ### Claim C7 -/

/-- C7 counterexample: calling `destroy_session` on the already-destroyed
session `session_c7` is not a no-op — `janus_source_close_session` runs again
before the `destroyed` check and re-issues the registry HTTP DELETE (to
`<status_service_url>/(null)`, the `db_entry_session_id` having been freed)
and another mountpoint removal. -/
theorem c7_counterexample :
    (janus_source_destroy_session false true true (some "http://reg")
        (some session_c7) [2] 1 [1] ⟨4000, 5000, [], 0⟩ 99).actions =
      [DestroyAction.curlDelete "http://reg/(null)",
        DestroyAction.removeMountpoint none] ∧
    DestroyAction.curlDelete "http://reg/(null)" ∈
      (janus_source_destroy_session false true true (some "http://reg")
        (some session_c7) [2] 1 [1] ⟨4000, 5000, [], 0⟩ 99).actions := by
  refine ⟨rfl, ?_⟩
  rw [(by rfl : (janus_source_destroy_session false true true (some "http://reg")
      (some session_c7) [2] 1 [1] ⟨4000, 5000, [], 0⟩ 99).actions =
    [DestroyAction.curlDelete "http://reg/(null)",
      DestroyAction.removeMountpoint none])]
  simp

/-- C7 amended: `destroy_session` on an already-destroyed session leaves the
sessions map, the `old_sessions` list, the `destroyed` stamp and the port pool
unchanged and closes no socket (the table is already NULL) — but it is not a
complete no-op: `close_session` runs again, re-issuing the registry HTTP
DELETE and, when `rtsp_server_data` and the stale `callback_data` are set,
another mountpoint removal. -/
theorem c7_destroy_session_amended (s : janus_source_session) (surl : Option String)
    (rtspP : Bool) (map old : List Nat) (handle : Nat) (pool : ports_pool)
    (now : Int) (hdest : s.destroyed ≠ 0) (hsock : s.sockets = none) :
    (janus_source_destroy_session false true rtspP surl (some s) map handle old
        pool now).sessionsMap = map ∧
    (janus_source_destroy_session false true rtspP surl (some s) map handle old
        pool now).old_sessions = old ∧
    (janus_source_destroy_session false true rtspP surl (some s) map handle old
        pool now).pool = pool ∧
    (janus_source_destroy_session false true rtspP surl (some s) map handle old
        pool now).error = none ∧
    (∃ s2, (janus_source_destroy_session false true rtspP surl (some s) map handle
        old pool now).session = some s2 ∧ s2.destroyed = s.destroyed) ∧
    (janus_source_destroy_session false true rtspP surl (some s) map handle old
        pool now).actions =
      DestroyAction.curlDelete (cstr surl ++ "/" ++ cstr s.db_entry_session_id) ::
        (if rtspP && s.callback_data then [DestroyAction.removeMountpoint s.id]
          else []) ∧
    (janus_source_destroy_session false true rtspP surl (some s) map handle old
        pool now).actions ≠ [] := by
  have h : janus_source_destroy_session false true rtspP surl (some s) map handle old
      pool now =
    { error := none,
      session := some { s with
        sockets := none, id := none,
        db_entry_session_id := none, rtsp_url := none },
      sessionsMap := map, old_sessions := old, pool := pool,
      actions :=
        DestroyAction.curlDelete (cstr surl ++ "/" ++ cstr s.db_entry_session_id) ::
          (if rtspP && s.callback_data then [DestroyAction.removeMountpoint s.id]
            else []) } := by
    rw [janus_source_destroy_session]
    rw [if_neg (by simp)]
    simp only [janus_source_close_session, hsock]
    rw [if_neg (by simpa using hdest)]
    simp
  rw [h]
  refine ⟨rfl, rfl, rfl, rfl, ⟨_, rfl, rfl⟩, rfl, by simp⟩

/-- Witness for `c7_destroy_session_amended` at the concrete destroyed
session: the sessions map is untouched and the registry DELETE is re-issued. -/
theorem c7_destroy_session_amended_witness :
    (janus_source_destroy_session false true true (some "http://reg")
        (some session_c7) [2] 1 [1] ⟨4000, 5000, [], 0⟩ 99).sessionsMap = [2] ∧
    (janus_source_destroy_session false true true (some "http://reg")
        (some session_c7) [2] 1 [1] ⟨4000, 5000, [], 0⟩ 99).actions ≠ [] :=
  ⟨(c7_destroy_session_amended session_c7 (some "http://reg") true [2] [1] 1
      ⟨4000, 5000, [], 0⟩ 99 (by decide) rfl).1,
   (c7_destroy_session_amended session_c7 (some "http://reg") true [2] [1] 1
      ⟨4000, 5000, [], 0⟩ 99 (by decide) rfl).2.2.2.2.2.2⟩

/-! ### Claim C8 -/

/-- C8: the code is wrong and the claim (which matches the spec) is right.
At shutdown exactly one DELETE is issued, but
`janus_source_remove_pid_from_registry` passes the bare
`keepalive_service_url` to `curl_request` while the URL it carefully builds,
`<keepalive_url>/<pid>`, is left unused (and freed). With
`keepalive_service_url = "http://ka"` and PID `"42"` the request goes to
`http://ka`, not to the built `http://ka/42`. -/
theorem c8_code_bug_eval :
    janus_source_destroy_keepalive_section (some "http://ka") "42" =
      [HttpAction.delete "http://ka"] ∧
    (janus_source_remove_pid_from_registry (some "http://ka") "42").1 =
      "http://ka/42" ∧
    HttpAction.delete "http://ka" ≠ HttpAction.delete "http://ka/42" := by
  refine ⟨rfl, rfl, by decide⟩

/-! ### Claim C9 -/

/-- C9 counterexample: a client-socket request for port 4005 against the pool
`[4000, 4002]` (capacity guard `max - min = 2`, interval size 3) with every
connect attempt failing is still retrying after 6 iterations — more than the
pool capacity — always with the same port 4005, and each iteration "returned"
that never-acquired port to the pool, driving its count to -6. So the retry
count is not bounded by the pool capacity, the retries do not use a different
port, and the call does not terminate while failures persist. -/
theorem c9_counterexample :
    socket_utils_create_socket_loop 4005 bind_always_fail (fun _ => []) 6 0
        ⟨4000, 4002, [], 0⟩ =
      SockCreateResult.outOfFuel ⟨4000, 4002, [], -6⟩ ∧
    (6 : Int) > 4002 - 4000 := by
  decide

/-- C9 amended: (a) while bind/connect keeps failing the loop never returns
success, for any amount of fuel — the retry count is unbounded, not bounded by
the pool capacity; (b) a failed client iteration returns the (never-acquired)
requested port to the pool and retries with the same port; (c) a client
iteration whose connect succeeds returns that port; (d) a server socket
acquiring from an exhausted pool (`count ≥ max - min`) ends in the
`g_assert(port)` abort instead of returning failure. -/
theorem create_socket_loop_never_ok (req_port : Int) (bindOk : Nat → Bool)
    (drawsAt : Nat → List Int) (hfail : ∀ k, bindOk k = false) :
    ∀ fuel j pool p pl,
      socket_utils_create_socket_loop req_port bindOk drawsAt fuel j pool ≠
        SockCreateResult.ok p pl := by
  intro fuel
  induction fuel with
  | zero =>
    intro j pool p pl
    simp [socket_utils_create_socket_loop]
  | succ n ih =>
    intro j pool p pl
    rw [socket_utils_create_socket_loop]
    by_cases hreq : req_port ≠ 0
    · rw [if_pos hreq]
      simp only
      rw [if_neg (by omega : ¬req_port = 0), hfail j]
      simpa using ih (j + 1) (ports_pool_return pool req_port) p pl
    · rw [if_neg hreq]
      cases hget : ports_pool_get pool 0 (drawsAt j) with
      | none => simp
      | some v =>
        simp only
        by_cases hz : v.1 = 0
        · rw [if_pos hz]
          simp
        · rw [if_neg hz, hfail j]
          simpa using ih (j + 1) (ports_pool_return v.2 v.1) p pl

theorem c9_create_socket_amended (req_port : Int) (drawsAt : Nat → List Int)
    (bindOk : Nat → Bool) (pool : ports_pool) (i : Nat) :
    (∀ fuel j p pl, (∀ k, bindOk k = false) →
      socket_utils_create_socket_loop req_port bindOk drawsAt fuel j pool ≠
        SockCreateResult.ok p pl) ∧
    (∀ fuel, req_port ≠ 0 → bindOk i = false →
      socket_utils_create_socket_loop req_port bindOk drawsAt (fuel + 1) i pool =
        socket_utils_create_socket_loop req_port bindOk drawsAt fuel (i + 1)
          (ports_pool_return pool req_port)) ∧
    (∀ fuel, req_port ≠ 0 → bindOk i = true →
      socket_utils_create_socket_loop req_port bindOk drawsAt (fuel + 1) i pool =
        SockCreateResult.ok req_port pool) ∧
    (∀ fuel, req_port = 0 → pool.count ≥ pool.pmax - pool.pmin →
      socket_utils_create_socket_loop req_port bindOk drawsAt (fuel + 1) i pool =
        SockCreateResult.assertFailed pool) := by
  refine ⟨?_, ?_, ?_, ?_⟩
  · intro fuel j p pl hfail
    exact create_socket_loop_never_ok req_port bindOk drawsAt hfail fuel j pool p pl
  · intro fuel hreq hfail
    rw [socket_utils_create_socket_loop]
    rw [if_pos hreq]
    simp only
    rw [if_neg (by omega : ¬req_port = 0), hfail]
    simp
  · intro fuel hreq hok
    rw [socket_utils_create_socket_loop]
    rw [if_pos hreq]
    simp only
    rw [if_neg (by omega : ¬req_port = 0), hok]
    simp
  · intro fuel hreq hcap
    rw [socket_utils_create_socket_loop]
    rw [hreq]
    rw [if_neg (by simp)]
    rw [ports_pool_get, if_pos hcap]
    simp

/-- Witness for `c9_create_socket_amended`: a client request whose first
connect attempt succeeds returns the requested port. -/
theorem c9_create_socket_amended_witness :
    socket_utils_create_socket_loop 4005 (fun _ => true) (fun _ => []) 1 0
        ⟨4000, 4002, [], 0⟩ =
      SockCreateResult.ok 4005 ⟨4000, 4002, [], 0⟩ :=
  (c9_create_socket_amended 4005 (fun _ => []) (fun _ => true)
    ⟨4000, 4002, [], 0⟩ 0).2.2.1 0 (by decide) rfl

/-! ### Matcher lemmas (for C5 and C10) -/

theorem matchLit_append {lit cs rest : List Char} (h : matchLit lit cs = some rest) :
    cs = lit ++ rest := by
  induction lit generalizing cs with
  | nil =>
    rw [matchLit] at h
    simpa using Option.some_inj.mp h
  | cons l ls ih =>
    cases cs with
    | nil => exact absurd h (by rw [matchLit]; simp)
    | cons c cs' =>
      rw [matchLit] at h
      by_cases hc : c = l
      · rw [if_pos hc] at h
        subst hc
        simpa using ih h
      · rw [if_neg hc] at h
        exact absurd h (by simp)

theorem spanP_append (p : Char → Bool) (cs : List Char) :
    cs = (spanP p cs).1 ++ (spanP p cs).2 := by
  induction cs with
  | nil => rfl
  | cons c cs' ih =>
    rw [spanP]
    by_cases hc : p c
    · simp only [if_pos hc, List.cons_append]
      exact congrArg (c :: ·) ih
    · simp [if_neg hc]

theorem matchPlus_append {p : Char → Bool} {cs run rest : List Char}
    (h : matchPlus p cs = some (run, rest)) : cs = run ++ rest := by
  rw [matchPlus] at h
  rcases hs : spanP p cs with ⟨a, b⟩
  rw [hs] at h
  cases a with
  | nil => exact absurd h (by simp)
  | cons x xs =>
    have hrun : run = x :: xs ∧ rest = b := by
      constructor <;> · injection h with h'; cases h'; rfl
    rw [hrun.1, hrun.2]
    have := spanP_append p cs
    rw [hs] at this
    exact this

theorem find_first_split {α : Type} {f : List Char → Option α} {cs : List Char}
    {r : α} (h : find_first f cs = some r) :
    ∃ pre suf, cs = pre ++ suf ∧ f suf = some r := by
  induction cs with
  | nil => exact absurd h (by rw [find_first]; simp)
  | cons c cs' ih =>
    rw [find_first] at h
    cases hf : f (c :: cs') with
    | some x =>
      rw [hf] at h
      exact ⟨[], c :: cs', rfl, by rw [hf, Option.some_inj.mp h]⟩
    | none =>
      rw [hf] at h
      obtain ⟨pre, suf, heq, hsuf⟩ := ih h
      exact ⟨c :: pre, suf, by rw [List.cons_append, ← heq], hsuf⟩

theorem match_vline2_at_text {cs : List Char} {m : VideoLineMatch}
    (h : match_vline2_at cs = some m) : ∃ rest, cs = m.text ++ rest := by
  rw [match_vline2_at] at h
  obtain ⟨cs1, h1, h⟩ := Option.bind_eq_some.mp h
  obtain ⟨⟨w1, cs2⟩, h2, h⟩ := Option.bind_eq_some.mp h
  obtain ⟨⟨dp, cs3⟩, h3, h⟩ := Option.bind_eq_some.mp h
  obtain ⟨⟨w2, cs4⟩, h4, h⟩ := Option.bind_eq_some.mp h
  obtain ⟨cs5, h5, h⟩ := Option.bind_eq_some.mp h
  obtain ⟨⟨w3, cs6⟩, h6, h⟩ := Option.bind_eq_some.mp h
  obtain ⟨⟨d1, cs7⟩, h7, h⟩ := Option.bind_eq_some.mp h
  obtain ⟨⟨w4, cs8⟩, h8, h⟩ := Option.bind_eq_some.mp h
  obtain ⟨⟨d2, cs9⟩, h9, h⟩ := Option.bind_eq_some.mp h
  have hm := Option.some_inj.mp h
  refine ⟨cs9, ?_⟩
  rw [matchLit_append h1, matchPlus_append h2, matchPlus_append h3,
    matchPlus_append h4, matchLit_append h5, matchPlus_append h6,
    matchPlus_append h7, matchPlus_append h8, matchPlus_append h9, ← hm]
  simp [List.append_assoc]

theorem prefB_append (pat rest : List Char) : prefB pat (pat ++ rest) = true := by
  induction pat with
  | nil => rfl
  | cons p ps ih => simpa [prefB] using ih

theorem containsPat_tail_false {pat : List Char} {c : Char} {cs : List Char}
    (h : containsPat pat (c :: cs) = false) : containsPat pat cs = false := by
  rw [containsPat] at h
  by_cases hp : prefB pat (c :: cs)
  · rw [if_pos hp] at h
    exact absurd h (by simp)
  · rw [if_neg hp] at h
    exact h

theorem find_first_none_of_not_contains {α : Type} {f : List Char → Option α}
    {lit : List Char}
    (hf : ∀ cs r, f cs = some r → ∃ rest, matchLit lit cs = some rest) :
    ∀ {sdp : List Char}, containsPat lit sdp = false → find_first f sdp = none := by
  intro sdp
  induction sdp with
  | nil => intro _; rfl
  | cons c cs ih =>
    intro h
    rw [find_first]
    cases hfc : f (c :: cs) with
    | some r =>
      obtain ⟨rest, hml⟩ := hf _ _ hfc
      have heq := matchLit_append hml
      rw [containsPat, heq, prefB_append] at h
      exact absurd h (by simp)
    | none => exact ih (containsPat_tail_false h)

theorem match_rtpmap_neg1_head {cs r : List Char}
    (h : match_rtpmap_name_at (-1) cs = some r) :
    ∃ rest, matchLit (("a=rtpmap:-1").data) cs = some rest := by
  rw [match_rtpmap_name_at] at h
  have hpat : ((("a=rtpmap:").data) ++ int_to_chars (-1)) = ("a=rtpmap:-1").data := by
    decide
  rw [hpat] at h
  obtain ⟨cs1, h1, _⟩ := Option.bind_eq_some.mp h
  exact ⟨cs1, h1⟩

theorem str_replace_once_isSome (old new : List Char) :
    ∀ pre rest : List Char,
      ∃ out, str_replace_once (pre ++ (old ++ rest)) old new = some out := by
  intro pre
  induction pre with
  | nil =>
    intro rest
    refine ⟨new ++ (old ++ rest).drop old.length, ?_⟩
    rw [List.nil_append, str_replace_once.eq_def, if_pos (prefB_append old rest)]
  | cons c pre' ih =>
    intro rest
    rw [List.cons_append, str_replace_once.eq_def]
    by_cases hp : prefB old (c :: (pre' ++ (old ++ rest)))
    · exact ⟨_, by rw [if_pos hp]⟩
    · rw [if_neg hp]
      obtain ⟨out, hout⟩ := ih rest
      refine ⟨c :: out, ?_⟩
      show Option.map (fun r => c :: r)
        (str_replace_once (pre' ++ (old ++ rest)) old new) = some (c :: out)
      rw [hout]
      rfl

/-! ### Claim C5 -/

/-- C5 counterexample: on `sdp_c5` (video m-line `100 96 97`, H264 at payload
type 97) the code does not reorder — it overwrites the first two enumerated
payload types with `97 96`, leaving the trailing `97` in place: payload type
100 disappears from the SDP and 97 occurs twice, so the output differs from
the claimed reordering `97 100 96`. -/
theorem c5_counterexample :
    sdp_set_video_codec sdp_c5 idilia_codec.h264 = some sdp_c5_code_result ∧
    sdp_c5_code_result ≠ sdp_c5_claim_result ∧
    containsPat (("100").data) sdp_c5 = true ∧
    containsPat (("100").data) sdp_c5_code_result = false := by
  refine ⟨by decide, by decide, by decide, by decide⟩

/-- C5 amended: `sdp_set_video_codec` (a) returns a byte-equal copy when the
first payload type of the video m-line equals the chosen codec's rtpmap
payload type or the chosen codec is INVALID; (b) returns a byte-equal copy
when the two-payload-type video-line pattern does not match; (c) otherwise
replaces the first occurrence of the matched text — which covers only the
first two enumerated payload types — by `m=video <port> UDP/TLS/RTP/SAVPF
<desired> <codec1>` with single-space separators, where `codec1` is the
matched second payload type, or the first when the second already equals the
desired one; payload types after the second stay in place, so one can be
dropped and the desired one duplicated. The replacement always succeeds (the
matched text occurs in the SDP). -/
theorem c5_sdp_set_video_codec_amended (sdp : List Char) (codec : idilia_codec) :
    (sdp_get_codec_pt_for_type sdp (("video").data) = sdp_get_codec_pt sdp codec ∨
        codec = idilia_codec.invalid →
      sdp_set_video_codec sdp codec = some sdp) ∧
    (¬(sdp_get_codec_pt_for_type sdp (("video").data) = sdp_get_codec_pt sdp codec ∨
        codec = idilia_codec.invalid) →
      find_first match_vline2_at sdp = none →
      sdp_set_video_codec sdp codec = some sdp) ∧
    (∀ m : VideoLineMatch,
      ¬(sdp_get_codec_pt_for_type sdp (("video").data) = sdp_get_codec_pt sdp codec ∨
        codec = idilia_codec.invalid) →
      find_first match_vline2_at sdp = some m →
      sdp_set_video_codec sdp codec =
        str_replace_once sdp m.text (sdp_new_video_line m (sdp_get_codec_pt sdp codec)) ∧
      ∃ out, sdp_set_video_codec sdp codec = some out) := by
  refine ⟨?_, ?_, ?_⟩
  · intro h
    rw [sdp_set_video_codec]
    simp only
    rw [if_pos h]
  · intro h hnone
    rw [sdp_set_video_codec]
    simp only
    rw [if_neg h, hnone]
  · intro m h hsome
    have hset : sdp_set_video_codec sdp codec =
        str_replace_once sdp m.text (sdp_new_video_line m (sdp_get_codec_pt sdp codec)) := by
      rw [sdp_set_video_codec]
      simp only
      rw [if_neg h, hsome]
    refine ⟨hset, ?_⟩
    obtain ⟨pre, suf, heq, hmatch⟩ := find_first_split hsome
    obtain ⟨rest, hsuf⟩ := match_vline2_at_text hmatch
    obtain ⟨out, hout⟩ := str_replace_once_isSome m.text
      (sdp_new_video_line m (sdp_get_codec_pt sdp codec)) pre rest
    have heq' : sdp = pre ++ (m.text ++ rest) := by rw [heq, hsuf]
    rw [← heq'] at hout
    exact ⟨out, hset.trans hout⟩

/-- Witness for `c5_sdp_set_video_codec_amended`: the INVALID-codec case
returns the input unchanged, and on `sdp_c5` with H264 the rewrite branch
computes the replacement of the matched two-payload-type prefix. -/
theorem c5_sdp_set_video_codec_amended_witness :
    sdp_set_video_codec sdp_c5 idilia_codec.invalid = some sdp_c5 ∧
    sdp_set_video_codec sdp_c5 idilia_codec.h264 =
      str_replace_once sdp_c5 (("m=video 9 UDP/TLS/RTP/SAVPF 100 96").data)
        (sdp_new_video_line ⟨("m=video 9 UDP/TLS/RTP/SAVPF 100 96").data, 9, 100, 96⟩
          (sdp_get_codec_pt sdp_c5 idilia_codec.h264)) :=
  ⟨(c5_sdp_set_video_codec_amended sdp_c5 idilia_codec.invalid).1 (Or.inr rfl),
   ((c5_sdp_set_video_codec_amended sdp_c5 idilia_codec.h264).2.2
      ⟨("m=video 9 UDP/TLS/RTP/SAVPF 100 96").data, 9, 100, 96⟩
      (by decide) (by decide)).1⟩

/-! ### Claim C10 -/

/-- C10: for an SDP in which the pattern `m=video <port> UDP/TLS/RTP/SAVPF
<pt>` matches nowhere (no SAVPF transport token followed by a numeric payload
type on a video m-line) — and likewise for audio — and whose rtpmap lines are
well-formed (in particular the text `a=rtpmap:-1` never occurs, which a
negative payload type cannot produce from well-formed lines),
`sdp_get_video_codec` and `sdp_get_audio_codec` return INVALID even though
well-formed rtpmap lines for supported codecs may be present; consequently
the launch pipeline for such a session has no video branch: it is either NULL
or the single-`pay0` assembly around the audio slot. -/
theorem c10_no_savpf_invalid (sdp : List Char)
    (hvid : find_first (match_mline_at (("video").data)) sdp = none)
    (haud : find_first (match_mline_at (("audio").data)) sdp = none)
    (hwf : containsPat (("a=rtpmap:-1").data) sdp = false) :
    sdp_get_video_codec sdp = idilia_codec.invalid ∧
    sdp_get_audio_codec sdp = idilia_codec.invalid ∧
    (∀ (ca : idilia_codec) (ptv pta : Int) (spv spa : Option Int) (p1 p2 p3 p4 : Int),
      janus_source_create_launch_pipe (sdp_get_video_codec sdp) ca ptv pta spv spa
          p1 p2 p3 p4 =
        match spv, spa with
        | some _, some portA =>
          if ca = idilia_codec.invalid then none
          else
            some ((("( ").data) ++
              cstr_chars (launch_switch ca pta p3 p4 portA none none).2 ++
              ((" name=pay0 )").data))
        | _, _ => none) := by
  have hneg1 : find_first (match_rtpmap_name_at (-1)) sdp = none :=
    find_first_none_of_not_contains (fun cs r h => match_rtpmap_neg1_head h) hwf
  have hv : sdp_get_video_codec sdp = idilia_codec.invalid := by
    rw [sdp_get_video_codec, sdp_get_codec_pt_for_type, hvid, sdp_pt_to_codec_id,
      hneg1]
    rfl
  have ha : sdp_get_audio_codec sdp = idilia_codec.invalid := by
    rw [sdp_get_audio_codec, sdp_get_codec_pt_for_type, haud, sdp_pt_to_codec_id,
      hneg1]
    rfl
  refine ⟨hv, ha, ?_⟩
  intro ca ptv pta spv spa p1 p2 p3 p4
  rw [hv]
  cases spv with
  | none => rfl
  | some portV =>
    cases spa with
    | none => rfl
    | some portA =>
      cases ca <;> simp [janus_source_create_launch_pipe, launch_switch]

/-- Witness for `c10_no_savpf_invalid` on `sdp_c10` (transport `RTP/AVP`
with a well-formed VP8 rtpmap): the video codec is INVALID and, with the
audio codec also INVALID, no pipeline is emitted at all. -/
theorem c10_no_savpf_invalid_witness :
    sdp_get_video_codec sdp_c10 = idilia_codec.invalid ∧
    janus_source_create_launch_pipe (sdp_get_video_codec sdp_c10)
      idilia_codec.invalid (-1) (-1) (some 4200) (some 4201) 1 2 3 4 = none := by
  refine ⟨(c10_no_savpf_invalid sdp_c10 (by decide) (by decide) (by decide)).1, ?_⟩
  rw [(c10_no_savpf_invalid sdp_c10 (by decide) (by decide) (by decide)).2.2
    idilia_codec.invalid (-1) (-1) (some 4200) (some 4201) 1 2 3 4]
  simp

end IdiliaSource
